import Mathlib

/-!
Shallow embedding of the backend process supervisor of the `amadeus`
Electron shell: the `startServer` supervisor with its inline port
discovery scanner and restart-on-crash handler (main process file),
the `GracefulKiller.kill` two-phase shutdown (`src/electron/utils.cjs`),
and the allow-listed context bridge (`src/electron/preload.cjs`).
-/

namespace Amadeus

/-! ### Port discovery scanner

The default configuration's port pattern is the regular expression
`https?://(?:localhost|127\.0\.0\.1):(\d+)` with the case-insensitive
flag; `buffer.match` returns the leftmost match and `parseInt(m[1], 10)`
parses the captured digit run. We embed that matcher executably over
`List Char`. -/

/-- Case-insensitive character comparison (the regex `i` flag). -/
def charCI (a b : Char) : Bool := a.toLower == b.toLower

/-- Match a literal pattern case-insensitively at the head of the input,
returning the remaining input on success. -/
def matchLitCI : List Char → List Char → Option (List Char)
  | [], s => some s
  | _ :: _, [] => none
  | p :: ps, c :: cs => if charCI p c then matchLitCI ps cs else none

/-- Greedy `(\d+)` capture: the maximal leading digit run, requiring at
least one digit (JS `\d` is exactly `[0-9]`). -/
def digitCapture (s : List Char) : Option (List Char) :=
  let ds := s.takeWhile Char.isDigit
  if ds = [] then none else some ds

/-- Match `://(?:localhost|127\.0\.0\.1):(\d+)`, alternatives tried in
the regex's order, returning the captured digits. -/
def matchHostPort (s : List Char) : Option (List Char) :=
  match matchLitCI ("://localhost:".data) s with
  | some rest => digitCapture rest
  | none =>
    match matchLitCI ("://127.0.0.1:".data) s with
    | some rest => digitCapture rest
    | none => none

/-- Match the whole pattern anchored at the current position: `http`,
then a greedy optional `s` (with backtracking), then host, colon and the
digit capture. -/
def matchPortAt (s : List Char) : Option (List Char) :=
  match matchLitCI ("http".data) s with
  | none => none
  | some rest =>
    match rest with
    | [] => none
    | c :: rest2 =>
      if charCI 's' c then
        match matchHostPort rest2 with
        | some ds => some ds
        | none => matchHostPort rest
      else matchHostPort rest

/-- `parseInt(digits, 10)` on a captured digit run. -/
def digitsToNat (ds : List Char) : Nat :=
  ds.foldl (fun n c => 10 * n + (c.toNat - 48)) 0

/-- `buffer.match(portRegex)` followed by `parseInt(m[1], 10)`: the
leftmost position where the pattern matches, and its captured port. -/
def scanPort : List Char → Option Nat
  | [] => none
  | c :: cs =>
    match matchPortAt (c :: cs) with
    | some ds => some (digitsToNat ds)
    | none => scanPort cs

/-- Concatenation of a sequence of output chunks. -/
def concatChunks : List (List Char) → List Char
  | [] => []
  | c :: cs => c ++ concatChunks cs

/-! ### Server configuration -/

/-- The fields of a server configuration object (the `portRegex` field's
matching semantics are embedded above as `scanPort`; here we carry its
source text). -/
structure ServerConfig where
  execPath : String
  nt_command : String
  posix_command : String
  args : List String
  env : List (String × String)
  portRegexSource : String
  timeout : Nat
deriving Repr, DecidableEq

/-- The `defaultServerConfig` object of the main process file. -/
def defaultServerConfig : ServerConfig where
  execPath := "backend"
  nt_command := "backend.exe"
  posix_command := "./backend"
  args := []
  env := [("ELECTRON", "true"), ("FORCE_COLOR", "1")]
  portRegexSource := "https?://(?:localhost|127\\.0\\.0\\.1):(\\d+) with flag i"
  timeout := 10000

/-- A caller-supplied configuration object: a JS object that may omit
any of the keys of `defaultServerConfig`. -/
structure ServerConfigPatch where
  execPath : Option String := none
  nt_command : Option String := none
  posix_command : Option String := none
  args : Option (List String) := none
  env : Option (List (String × String)) := none
  portRegexSource : Option String := none
  timeout : Option Nat := none
deriving Repr, DecidableEq

/-- The spread merge at the top of `startServer`:
`const serverConfig = { ...defaultServerConfig, ...config }` — a key
present in the supplied object overrides the default. -/
def mergeConfig (config : ServerConfigPatch) : ServerConfig where
  execPath := config.execPath.getD defaultServerConfig.execPath
  nt_command := config.nt_command.getD defaultServerConfig.nt_command
  posix_command := config.posix_command.getD defaultServerConfig.posix_command
  args := config.args.getD defaultServerConfig.args
  env := config.env.getD defaultServerConfig.env
  portRegexSource := config.portRegexSource.getD defaultServerConfig.portRegexSource
  timeout := config.timeout.getD defaultServerConfig.timeout

/-- View a full configuration as the JS object passed to a recursive
`startServer(serverConfig)` call: every key present. -/
def ServerConfig.toPatch (c : ServerConfig) : ServerConfigPatch where
  execPath := some c.execPath
  nt_command := some c.nt_command
  posix_command := some c.posix_command
  args := some c.args
  env := some c.env
  portRegexSource := some c.portRegexSource
  timeout := some c.timeout

/-! ### Supervisor state machine

The mutable module-level state of the main process file
(`serverStarted`, `serverPort`) together with the per-attempt closure
variables of `startServer` (`buffer`, `portResolved`), the caller's
promise, and instrumentation observables: how many times `spawn` was
reached (`spawnCount`), which configurations launches were performed
with (`launches`), and how many times `reject` was invoked
(`rejectCalls`). -/

/-- A JS promise: settles at most once; `resolve`/`reject` on a settled
promise are no-ops. -/
inductive PromiseState where
  | pending
  | resolvedP (p : Nat)
  | rejectedP
deriving Repr, DecidableEq

/-- `resolve(p)`: settles a pending promise, no-op otherwise. -/
def resolveP : PromiseState → Nat → PromiseState
  | .pending, p => .resolvedP p
  | s, _ => s

/-- `reject(...)`: settles a pending promise, no-op otherwise. -/
def rejectP : PromiseState → PromiseState
  | .pending => .rejectedP
  | s => s

/-- JS truthiness of the `serverPort` variable (`null` and `0` are
falsy). -/
def portTruthy : Option Nat → Bool
  | none => false
  | some p => p != 0

structure SupervisorState where
  serverStarted : Bool
  serverPort : Option Nat
  buffer : List Char
  portResolved : Bool
  promise : PromiseState
  spawnCount : Nat
  launches : List ServerConfig
  rejectCalls : Nat
deriving Repr, DecidableEq

/-- The state before any `startServer` call. -/
def initialSupervisorState : SupervisorState where
  serverStarted := false
  serverPort := none
  buffer := []
  portResolved := false
  promise := .pending
  spawnCount := 0
  launches := []
  rejectCalls := 0

/-- A `startServer(config)` invocation: the guard
`if (serverStarted && serverPort) return serverPort;` and otherwise the
merge of the configuration and the `spawn` of a fresh attempt (fresh
`buffer` and `portResolved` closure variables). Returns the new state
and `some port` when the guard returned immediately, `none` when a new
process was spawned and the result is pending. -/
def startServer (config : ServerConfigPatch) (st : SupervisorState) :
    SupervisorState × Option Nat :=
  if st.serverStarted && portTruthy st.serverPort then
    (st, st.serverPort)
  else
    let serverConfig := mergeConfig config
    ({ st with
        spawnCount := st.spawnCount + 1
        launches := st.launches ++ [serverConfig]
        buffer := []
        portResolved := false }, none)

/-- The `checkPortInBuffer` closure: return if already resolved, append
the chunk to the buffer, match the pattern against the whole buffer; on
a match set `portResolved`, store the parsed port in `serverPort`, set
`serverStarted`, resolve the promise and clear the buffer. -/
def checkPortInBuffer (st : SupervisorState) (data : List Char) :
    SupervisorState :=
  if st.portResolved then st
  else
    let buffer := st.buffer ++ data
    match scanPort buffer with
    | some p =>
        { st with
            portResolved := true
            serverPort := some p
            serverStarted := true
            promise := resolveP st.promise p
            buffer := [] }
    | none => { st with buffer := buffer }

/-- The `close` handler of the child process: on a non-zero exit code
while the killer is not quitting, reset the module state and re-invoke
`startServer(serverConfig)` with the same merged configuration (chained
on the same caller promise); otherwise only reset. -/
def onClose (serverConfig : ServerConfig) (st : SupervisorState)
    (isQuitting : Bool) (code : Int) : SupervisorState :=
  if code ≠ 0 ∧ isQuitting = false then
    (startServer serverConfig.toPatch
      { st with serverStarted := false, serverPort := none }).1
  else
    { st with serverStarted := false, serverPort := none }

/-- The startup-timeout callback registered at spawn time (the code
contains no `clearTimeout`, so this callback always runs when the timer
elapses): `if (!serverStarted) reject(new Error(...))`. -/
def timeoutFire (st : SupervisorState) : SupervisorState :=
  if st.serverStarted = false then
    { st with rejectCalls := st.rejectCalls + 1, promise := rejectP st.promise }
  else st

/-- Asynchronous events delivered to the single-threaded event loop
within the supervisor's lifetime. -/
inductive SupEvent where
  | data (chunk : List Char)
  | close (code : Int) (quitting : Bool)
  | timer
deriving Repr, DecidableEq

/-- Dispatch one event (the attempt's merged configuration is closed
over by the `close` handler). -/
def stepEvent (serverConfig : ServerConfig) (st : SupervisorState) :
    SupEvent → SupervisorState
  | .data c => checkPortInBuffer st c
  | .close code q => onClose serverConfig st q code
  | .timer => timeoutFire st

/-- Run a sequence of events in order. -/
def runEvents (serverConfig : ServerConfig) (st : SupervisorState) :
    List SupEvent → SupervisorState
  | [] => st
  | e :: es => runEvents serverConfig (stepEvent serverConfig st e) es

/-- Run a sequence of output-data chunks in arrival order. -/
def runData (st : SupervisorState) : List (List Char) → SupervisorState
  | [] => st
  | c :: cs => runData (checkPortInBuffer st c) cs

/-! ### GracefulKiller.kill (src/electron/utils.cjs)

`kill(processToKill)` resolves immediately when
`!processToKill || processToKill.killed`; otherwise it schedules a
SIGKILL timer with a 5000 ms grace window, registers an `exit` listener
that clears the timer and resolves, and sends SIGTERM. The timer
callback sends SIGKILL and does nothing else.

Node semantics that matter here: `ChildProcess.killed` is set when a
signal was previously sent through the handle via `kill()`; it is NOT
set by the process exiting on its own. And the `exit` event is emitted
exactly once, so a listener registered after the process has already
exited never runs. We embed the call as an initial state computed from
the handle, plus a step function over the two asynchronous events
(`exit` delivery to this call's listener, grace timer elapsing); a
cleared or already-fired timer's event is a no-op, as is an `exit`
delivery when no listener of this call can still run. -/

/-- The observables of a `ChildProcess` handle at the time `kill` is
called: `exited` — the process has already exited (its `exit` event has
already been emitted and will not be emitted again); `killed` — Node's
`.killed` flag, true iff a signal was previously sent through the
handle via `kill()` (natural exit does not set it). -/
structure ProcHandle where
  exited : Bool
  killed : Bool
deriving Repr, DecidableEq

/-- Observable state of one `kill()` invocation. The `exited` field
means: no exit-listener callback of this call can still run (the
process had already exited before the listener was registered, no
listener was registered at all, or the listener has already run). -/
structure KillState where
  exited : Bool
  timeoutActive : Bool
  resolved : Bool
  sigterms : Nat
  sigkills : Nat
deriving Repr, DecidableEq

/-- The synchronous body of `kill(processToKill)`: if
`!processToKill || processToKill.killed`, resolve and return (no timer,
no listener, no signal); else schedule the grace timer, register the
exit listener (which will never run if the process has already exited)
and send SIGTERM through the handle. -/
def killStart (handle : Option ProcHandle) : KillState :=
  match handle with
  | none =>
      { exited := true, timeoutActive := false, resolved := true
        sigterms := 0, sigkills := 0 }
  | some ph =>
      if ph.killed then
        { exited := true, timeoutActive := false, resolved := true
          sigterms := 0, sigkills := 0 }
      else
        { exited := ph.exited, timeoutActive := true, resolved := false
          sigterms := 1, sigkills := 0 }

inductive KillEvent where
  | exitEv
  | killTimeoutEv
deriving Repr, DecidableEq

/-- One asynchronous event: delivery of the process's `exit` event to
this call's listener clears the timer and resolves (a no-op when no
listener of this call can still run); the timer callback sends SIGKILL
(and does not resolve). A timer that was cleared (or already fired)
does not run. -/
def killStep (st : KillState) : KillEvent → KillState
  | .exitEv =>
      if st.exited then st
      else { st with exited := true, timeoutActive := false, resolved := true }
  | .killTimeoutEv =>
      if st.timeoutActive then
        { st with timeoutActive := false, sigkills := st.sigkills + 1 }
      else st

def killRunFrom (st : KillState) : List KillEvent → KillState
  | [] => st
  | e :: es => killRunFrom (killStep st e) es

/-- A whole `kill()` call on a handle followed by a sequence of
asynchronous events. -/
def killRunOn (handle : Option ProcHandle) (es : List KillEvent) : KillState :=
  killRunFrom (killStart handle) es

/-- `kill()` on a live handle — a non-null handle of a process that has
not yet exited, whose `.killed` flag is `alreadyKilled` — followed by a
sequence of events. -/
def killRun (alreadyKilled : Bool) (es : List KillEvent) : KillState :=
  killRunOn (some { exited := false, killed := alreadyKilled }) es

/-! ### Context bridge (src/electron/preload.cjs)

The bridge exposes `send`, `receive` and `invoke` guarded by fixed
channel allow-lists. We record the externally observable actions each
call performs. -/

def validInvokeChannels : List String := ["get-api-port"]

def validReceiveChannels : List String := ["backend-log", "backend-port"]

/-- Observable effects of a bridge call: reaching the underlying
`ipcRenderer` operation on a channel, or logging a warning. -/
inductive BridgeAction where
  | ipcInvoke (channel : String)
  | ipcSend (channel : String)
  | ipcSubscribe (channel : String)
  | warn (msg : String)
deriving Repr, DecidableEq

/-- The exposed `send(channel, data)`: its local allow-list is the empty
array, so the `ipcRenderer.send` branch is guarded by membership in
`[]`; there is no warning branch. -/
def send (channel : String) (data : String) : List BridgeAction :=
  let validChannels : List String := []
  if channel ∈ validChannels then [BridgeAction.ipcSend channel] else []

/-- The exposed `receive(channel, listener)`: subscribe via
`ipcRenderer.on` when the channel is allow-listed (returning a
disposer), otherwise log a warning. -/
def receive (channel : String) : List BridgeAction :=
  if channel ∈ validReceiveChannels then [BridgeAction.ipcSubscribe channel]
  else
    [BridgeAction.warn
      ("[Preload] Blocked a receive subscription to an invalid channel: "
        ++ channel)]

/-- The exposed `invoke(channel, ...args)`: forward to
`ipcRenderer.invoke` when the channel is allow-listed, otherwise log a
warning (and return no result). -/
def invoke (channel : String) : List BridgeAction :=
  if channel ∈ validInvokeChannels then [BridgeAction.ipcInvoke channel]
  else
    [BridgeAction.warn
      ("[Preload] Blocked an invoke call to an invalid channel: "
        ++ channel)]

/-! ### Concrete example states used in witnesses -/

/-- The two chunks of the split-announcement example. -/
def splitChunksExample : List (List Char) :=
  ["Running at http://localhost:".data, "3000/".data]

/-- State of a freshly spawned first launch attempt (still `Starting`,
no port resolved). -/
def freshAttemptExample : SupervisorState :=
  (startServer {} initialSupervisorState).1

/-- State after the first attempt resolved port 3000. -/
def resolvedStateExample : SupervisorState :=
  { initialSupervisorState with
      serverStarted := true
      serverPort := some 3000
      portResolved := true
      promise := .resolvedP 3000
      spawnCount := 1
      launches := [defaultServerConfig] }

/-! ### Helper lemmas -/

theorem killRunFrom_append (as bs : List KillEvent) (st : KillState) :
    killRunFrom st (as ++ bs) = killRunFrom (killRunFrom st as) bs := by
  induction as generalizing st with
  | nil => rfl
  | cons a as ih => simpa [killRunFrom] using ih (killStep st a)

theorem killRunFrom_sigterms (es : List KillEvent) (st : KillState) :
    (killRunFrom st es).sigterms = st.sigterms := by
  induction es generalizing st with
  | nil => rfl
  | cons e es ih =>
      have hstep : (killStep st e).sigterms = st.sigterms := by
        cases e <;> simp only [killStep] <;> split <;> rfl
      rw [killRunFrom, ih, hstep]

theorem killRunFrom_inactive (es : List KillEvent) (st : KillState)
    (h : st.timeoutActive = false) :
    (killRunFrom st es).timeoutActive = false ∧
      (killRunFrom st es).sigkills = st.sigkills := by
  induction es generalizing st with
  | nil => exact ⟨h, rfl⟩
  | cons e es ih =>
      have hstep : (killStep st e).timeoutActive = false ∧
          (killStep st e).sigkills = st.sigkills := by
        cases e with
        | exitEv =>
            simp only [killStep]
            split
            · exact ⟨h, rfl⟩
            · exact ⟨rfl, rfl⟩
        | killTimeoutEv =>
            simp only [killStep, h]
            exact ⟨h, rfl⟩
      rw [killRunFrom]
      obtain ⟨h1, h2⟩ := ih (killStep st e) hstep.1
      exact ⟨h1, h2.trans hstep.2⟩

theorem killRunFrom_noTimeout (es : List KillEvent) (st : KillState)
    (h : KillEvent.killTimeoutEv ∉ es) :
    (killRunFrom st es).sigkills = st.sigkills := by
  induction es generalizing st with
  | nil => rfl
  | cons e es ih =>
      have he : e ≠ KillEvent.killTimeoutEv := fun hh => h (hh ▸ List.mem_cons_self e es)
      have hes : KillEvent.killTimeoutEv ∉ es := fun hh => h (List.mem_cons_of_mem e hh)
      have hstep : (killStep st e).sigkills = st.sigkills := by
        cases e with
        | exitEv => simp only [killStep]; split <;> rfl
        | killTimeoutEv => exact absurd rfl he
      rw [killRunFrom, ih (killStep st e) hes, hstep]

theorem killRunFrom_exitedInactive (es : List KillEvent) (st : KillState)
    (h : st.exited = true → st.timeoutActive = false) :
    (killRunFrom st es).exited = true → (killRunFrom st es).timeoutActive = false := by
  induction es generalizing st with
  | nil => exact h
  | cons e es ih =>
      refine ih (killStep st e) ?_
      cases e with
      | exitEv => simp only [killStep]; split <;> simp [h, *]
      | killTimeoutEv => simp only [killStep]; split <;> simp [h, *]

theorem killRunFrom_terminal (es : List KillEvent) (st : KillState)
    (h1 : st.exited = true) (h2 : st.timeoutActive = false) :
    killRunFrom st es = st := by
  induction es generalizing st with
  | nil => rfl
  | cons e es ih =>
      have hstep : killStep st e = st := by
        cases e <;> simp [killStep, h1, h2]
      rw [killRunFrom, hstep, ih st h1 h2]

theorem mergeConfig_toPatch (c : ServerConfig) : mergeConfig c.toPatch = c := rfl

/-! ### Claim theorems -/

/-- C6: for every live process handle passed to `kill`, if the exit
event arrives before the grace timer elapses (no timer event precedes
it), no SIGKILL is ever issued and only the one polite SIGTERM was
sent; if the grace timer elapses first, exactly one SIGKILL is issued
(after the one polite SIGTERM), whatever happens afterwards. -/
theorem terminate_signal_policy (es₁ esA esB : List KillEvent)
    (h : KillEvent.killTimeoutEv ∉ es₁) :
    (killRun false (es₁ ++ KillEvent.exitEv :: esA)).sigkills = 0 ∧
    (killRun false (es₁ ++ KillEvent.exitEv :: esA)).sigterms = 1 ∧
    (killRun false (KillEvent.killTimeoutEv :: esB)).sigkills = 1 ∧
    (killRun false (KillEvent.killTimeoutEv :: esB)).sigterms = 1 := by
  refine ⟨?_, ?_, ?_, ?_⟩
  · rw [killRun, killRunOn, killRunFrom_append]
    set live := killStart (some { exited := false, killed := false }) with hlive
    set st₁ := killRunFrom live es₁ with hst₁
    have hsig : st₁.sigkills = 0 := killRunFrom_noTimeout es₁ live h
    have hinv : st₁.exited = true → st₁.timeoutActive = false :=
      killRunFrom_exitedInactive es₁ live
        (by intro hx; exact absurd hx (by rw [hlive]; decide))
    rw [killRunFrom]
    have hstep : (killStep st₁ KillEvent.exitEv).timeoutActive = false ∧
        (killStep st₁ KillEvent.exitEv).sigkills = 0 := by
      simp only [killStep]
      split
      · exact ⟨hinv (by assumption), hsig⟩
      · exact ⟨rfl, hsig⟩
    obtain ⟨h1, h2⟩ := killRunFrom_inactive esA _ hstep.1
    rw [h2, hstep.2]
  · exact (killRunFrom_sigterms _ _).trans rfl
  · rw [killRun, killRunOn, killRunFrom]
    have hstep : (killStep (killStart (some { exited := false, killed := false }))
          KillEvent.killTimeoutEv).timeoutActive = false ∧
        (killStep (killStart (some { exited := false, killed := false }))
          KillEvent.killTimeoutEv).sigkills = 1 := by
      exact ⟨rfl, rfl⟩
    obtain ⟨h1, h2⟩ := killRunFrom_inactive esB _ hstep.1
    rw [h2, hstep.2]
  · exact (killRunFrom_sigterms _ _).trans rfl

/-- Witness for C6 at concrete traces: exit within the window (trace
`[exit]`) versus timer first (trace `[timeout, exit]`). -/
theorem terminate_signal_policy_witness :
    (killRun false [KillEvent.exitEv]).sigkills = 0 ∧
    (killRun false [KillEvent.exitEv]).sigterms = 1 ∧
    (killRun false [KillEvent.killTimeoutEv, KillEvent.exitEv]).sigkills = 1 ∧
    (killRun false [KillEvent.killTimeoutEv, KillEvent.exitEv]).sigterms = 1 :=
  terminate_signal_policy [] [] [KillEvent.exitEv] (by simp)

/-- C7 counterexample: when the grace timer fires first, `kill` issues
the SIGKILL but the promise is still unresolved — it has not "resolved
immediately". -/
theorem kill_timeout_not_resolving_cex :
    (killRun false [KillEvent.killTimeoutEv]).sigkills = 1 ∧
    (killRun false [KillEvent.killTimeoutEv]).resolved = false :=
  ⟨rfl, rfl⟩

/-- C7 (amended): when the grace timer fires first, `kill` issues the
forceful SIGKILL but does not resolve then; the promise resolves only
once the process's exit notification subsequently arrives. -/
theorem kill_resolves_on_exit_after_sigkill (es : List KillEvent) :
    (killRun false [KillEvent.killTimeoutEv]).resolved = false ∧
    (killRun false (KillEvent.killTimeoutEv :: KillEvent.exitEv :: es)).resolved = true := by
  refine ⟨rfl, ?_⟩
  show (killRunFrom
      (killStep
        (killStep (killStart (some { exited := false, killed := false }))
          KillEvent.killTimeoutEv)
        KillEvent.exitEv)
      es).resolved = true
  rw [killRunFrom_terminal es _ rfl rfl]
  rfl

/-- C8 counterexample: a handle whose process is already dead but was
never signalled (`exited = true`, `killed = false` — a child that
exited on its own) fails the `!processToKill || processToKill.killed`
guard: `kill` sends a SIGTERM through the handle and does not resolve;
the exit listener it registers never runs (the `exit` event already
fired), so even after the grace timer elapses — issuing a SIGKILL — the
call is still unresolved. -/
theorem kill_dead_unsignalled_hangs_cex :
    (killRunOn (some { exited := true, killed := false }) []).sigterms = 1 ∧
    (killRunOn (some { exited := true, killed := false }) []).resolved = false ∧
    (killRunOn (some { exited := true, killed := false })
        [KillEvent.killTimeoutEv]).resolved = false ∧
    (killRunOn (some { exited := true, killed := false })
        [KillEvent.killTimeoutEv]).sigkills = 1 :=
  ⟨rfl, rfl, rfl, rfl⟩

/-- C8 (amended): `kill` returns immediately — resolved at once, no
signal ever sent, state never changing under any later events — exactly
when the handle is null or its `.killed` flag is already set, i.e. a
signal was previously sent through it (so a repeated `terminate` is
idempotent); a handle whose process merely exited on its own does not
satisfy the guard. -/
theorem kill_already_signalled_immediate_noop (handle : Option ProcHandle)
    (es : List KillEvent)
    (h : handle = none ∨ ∃ ph, handle = some ph ∧ ph.killed = true) :
    killRunOn handle es = killStart handle ∧
    (killStart handle).resolved = true ∧
    (killRunOn handle es).sigterms = 0 ∧
    (killRunOn handle es).sigkills = 0 := by
  have hstart : killStart handle =
      { exited := true, timeoutActive := false, resolved := true
        sigterms := 0, sigkills := 0 } := by
    rcases h with h | ⟨ph, hph, hk⟩
    · rw [h]
      rfl
    · rw [hph, killStart, hk]
      rfl
  have hrun : killRunOn handle es = killStart handle := by
    rw [killRunOn, killRunFrom_terminal es _ (by rw [hstart]) (by rw [hstart])]
  refine ⟨hrun, by rw [hstart], by rw [hrun, hstart], by rw [hrun, hstart]⟩

/-- Witness for the amended C8: a second `kill` on a handle already
signalled by a first call (killed flag set, process not yet exited)
resolves immediately and stays inert even when the exit arrives. -/
theorem kill_already_signalled_immediate_noop_witness :
    killRunOn (some { exited := false, killed := true }) [KillEvent.exitEv] =
      killStart (some { exited := false, killed := true }) ∧
    (killStart (some { exited := false, killed := true })).resolved = true ∧
    (killRunOn (some { exited := false, killed := true })
        [KillEvent.exitEv]).sigterms = 0 ∧
    (killRunOn (some { exited := false, killed := true })
        [KillEvent.exitEv]).sigkills = 0 :=
  kill_already_signalled_immediate_noop
    (some { exited := false, killed := true }) [KillEvent.exitEv]
    (Or.inr ⟨{ exited := false, killed := true }, rfl, rfl⟩)

/-- C9: an `invoke` request or a `receive` subscription on any channel
outside the respective allow-list performs no `ipcRenderer` operation
at all — its only observable action is the logged warning. -/
theorem invalid_channel_blocked (ch : String)
    (h1 : ch ∉ validInvokeChannels) (h2 : ch ∉ validReceiveChannels) :
    invoke ch =
      [BridgeAction.warn
        ("[Preload] Blocked an invoke call to an invalid channel: " ++ ch)] ∧
    receive ch =
      [BridgeAction.warn
        ("[Preload] Blocked a receive subscription to an invalid channel: " ++ ch)] := by
  constructor
  · rw [invoke, if_neg h1]
  · rw [receive, if_neg h2]

/-- Witness for C9 at the concrete channel name "evil-channel". -/
theorem invalid_channel_blocked_witness :
    invoke "evil-channel" =
      [BridgeAction.warn
        "[Preload] Blocked an invoke call to an invalid channel: evil-channel"] ∧
    receive "evil-channel" =
      [BridgeAction.warn
        "[Preload] Blocked a receive subscription to an invalid channel: evil-channel"] :=
  invalid_channel_blocked "evil-channel" (by decide) (by decide)

/-- C10: the exposed `send` performs no IPC for any channel and any
payload (its allow-list is empty) and emits no warning either: every
fire-and-forget message is dropped silently. -/
theorem send_is_silent_noop (channel data : String) :
    send channel data = [] := by
  rw [send, if_neg (List.not_mem_nil channel)]

/-- C1 counterexample: a second `startServer()` issued while the first
call is still pending (state is `Starting`: `serverStarted` false, no
port) passes the `serverStarted && serverPort` guard and spawns a
second child process — `spawn` is reached twice — and neither caller
has observed a resolved port. -/
theorem start_pending_double_spawn_cex :
    ((startServer {} ((startServer {} initialSupervisorState).1)).1).spawnCount = 2 ∧
    (startServer {} initialSupervisorState).2 = none ∧
    (startServer {} ((startServer {} initialSupervisorState).1)).2 = none :=
  ⟨rfl, rfl, rfl⟩

/-- C1 (amended): only once the server is `Running` — `serverStarted`
is set and a (non-zero) port is stored — does a further `startServer()`
call spawn nothing and return the already-resolved port; a call while a
first attempt is still `Starting` spawns a second process. -/
theorem startServer_idempotent_when_running (config : ServerConfigPatch)
    (st : SupervisorState) (p : Nat)
    (h1 : st.serverStarted = true) (h2 : st.serverPort = some p) (h3 : p ≠ 0) :
    startServer config st = (st, some p) := by
  rw [startServer, h2.symm, if_pos]
  rw [h1, h2]
  simp only [portTruthy, Bool.true_and, bne_iff_ne, ne_eq]
  exact h3

/-- Witness for the amended C1 at a concrete `Running(3000)` state. -/
theorem startServer_idempotent_when_running_witness :
    startServer {} resolvedStateExample = (resolvedStateExample, some 3000) :=
  startServer_idempotent_when_running {} resolvedStateExample 3000 rfl rfl (by decide)

/-- C2: the `close` handler performs exactly one new launch with the
same merged configuration when the exit code is non-zero and the
supervisor is not quitting, and no launch at all when the exit code is
zero or the supervisor is quitting. -/
theorem onClose_restart_policy (serverConfig : ServerConfig)
    (st : SupervisorState) (q : Bool) (code : Int) :
    (onClose serverConfig st q code).launches =
      (if code ≠ 0 ∧ q = false then st.launches ++ [serverConfig] else st.launches) ∧
    (onClose serverConfig st q code).spawnCount =
      (if code ≠ 0 ∧ q = false then st.spawnCount + 1 else st.spawnCount) := by
  rw [onClose]
  by_cases h : code ≠ 0 ∧ q = false
  · rw [if_pos h, if_pos h, if_pos h, startServer, if_neg]
    · simp [mergeConfig_toPatch]
    · simp
  · rw [if_neg h, if_neg h, if_neg h]
    exact ⟨rfl, rfl⟩

/-- C4: once a launch attempt's scanner has resolved
(`portResolved = true`), every further output chunk is ignored: the
supervisor state — buffer, stored port, promise — never changes again,
however often the pattern matches in later input. -/
theorem checkPortInBuffer_at_most_one_resolution (st : SupervisorState)
    (cs : List (List Char)) (h : st.portResolved = true) :
    runData st cs = st := by
  induction cs with
  | nil => rfl
  | cons c cs ih =>
      show runData (checkPortInBuffer st c) cs = st
      rw [checkPortInBuffer, if_pos h]
      exact ih

/-- Witness for C4: after port 3000 is resolved, a chunk announcing a
different port changes nothing. -/
theorem checkPortInBuffer_at_most_one_resolution_witness :
    runData resolvedStateExample ["New at http://localhost:9999/".data] =
      resolvedStateExample :=
  checkPortInBuffer_at_most_one_resolution resolvedStateExample
    ["New at http://localhost:9999/".data] rfl

/-- C5 counterexample: the startup timer is not canceled when the port
resolves — it still fires afterwards, and in the interleaving
"port resolved, then crash-restart, then timer elapses" its callback
even invokes `reject` (`rejectCalls = 1`); only the
settle-once promise semantics keeps the resolution intact. -/
theorem startup_timer_fires_after_resolution_cex :
    (runEvents defaultServerConfig ((startServer {} initialSupervisorState).1)
        [SupEvent.data ("http://localhost:3000/".data),
         SupEvent.close 1 false, SupEvent.timer]).rejectCalls = 1 ∧
    (runEvents defaultServerConfig ((startServer {} initialSupervisorState).1)
        [SupEvent.data ("http://localhost:3000/".data),
         SupEvent.close 1 false, SupEvent.timer]).promise =
      PromiseState.resolvedP 3000 :=
  ⟨rfl, rfl⟩

/-- C5 (amended): the startup timer is never canceled and may fire (and
even call `reject`) after the port is resolved, but a settled promise
ignores `reject`, so under every event interleaving the resolved
`start()` promise stays resolved with the same port — the caller never
observes a timer-caused rejection. -/
theorem resolved_promise_never_rejected (serverConfig : ServerConfig)
    (st : SupervisorState) (p : Nat) (es : List SupEvent)
    (h : st.promise = PromiseState.resolvedP p) :
    (runEvents serverConfig st es).promise = PromiseState.resolvedP p := by
  induction es generalizing st with
  | nil => exact h
  | cons e es ih =>
      refine ih (stepEvent serverConfig st e) ?_
      cases e with
      | data c =>
          show (checkPortInBuffer st c).promise = PromiseState.resolvedP p
          rw [checkPortInBuffer]
          split
          · exact h
          · cases hsc : scanPort (st.buffer ++ c) with
            | some q =>
                simp only [hsc]
                show resolveP st.promise q = PromiseState.resolvedP p
                rw [h]
                rfl
            | none =>
                simp only [hsc]
                exact h
      | close code q =>
          show (onClose serverConfig st q code).promise = PromiseState.resolvedP p
          rw [onClose]
          split
          · rw [startServer]
            split
            · exact h
            · exact h
          · exact h
      | timer =>
          show (timeoutFire st).promise = PromiseState.resolvedP p
          rw [timeoutFire]
          split
          · show rejectP st.promise = PromiseState.resolvedP p
            rw [h]
            rfl
          · exact h

/-- Witness for the amended C5: a resolved attempt hit by the timer
event keeps its resolution. -/
theorem resolved_promise_never_rejected_witness :
    (runEvents defaultServerConfig resolvedStateExample [SupEvent.timer]).promise =
      PromiseState.resolvedP 3000 :=
  resolved_promise_never_rejected defaultServerConfig resolvedStateExample 3000
    [SupEvent.timer] rfl

/-- C3: within one launch attempt (scanner not yet resolved, buffer so
far unmatched), for chunks delivered in order whose concatenation first
matches the pattern once the final chunk has arrived, the scanner
resolves with exactly the port parsed from the first match of the
pattern in the concatenation of all chunks seen so far — in particular
an announcement split across several chunks is detected. -/
theorem scanner_finds_first_match_in_concatenation
    (cs : List (List Char)) (st : SupervisorState) (p : Nat)
    (hres : st.portResolved = false)
    (hb : scanPort st.buffer = none)
    (hpre : ∀ k, k < cs.length →
      scanPort (st.buffer ++ concatChunks (cs.take k)) = none)
    (hfull : scanPort (st.buffer ++ concatChunks cs) = some p) :
    runData st cs =
      { st with
          buffer := []
          portResolved := true
          serverPort := some p
          serverStarted := true
          promise := resolveP st.promise p } := by
  induction cs generalizing st with
  | nil =>
      rw [concatChunks, List.append_nil, hb] at hfull
      exact Option.noConfusion hfull
  | cons c cs ih =>
      show runData (checkPortInBuffer st c) cs = _
      cases hsc : scanPort (st.buffer ++ c) with
      | some q =>
          have hcb : checkPortInBuffer st c =
              { st with
                  portResolved := true
                  serverPort := some q
                  serverStarted := true
                  promise := resolveP st.promise q
                  buffer := [] } := by
            rw [checkPortInBuffer, if_neg (by simp [hres])]
            simp only [hsc]
          cases cs with
          | nil =>
              simp only [concatChunks, List.append_nil] at hfull
              rw [hsc] at hfull
              obtain rfl := Option.some.inj hfull
              exact hcb
          | cons d ds =>
              exfalso
              have h1 := hpre 1 (Nat.succ_lt_succ (Nat.succ_pos ds.length))
              simp only [List.take_succ_cons, List.take_zero, concatChunks,
                List.append_nil] at h1
              rw [hsc] at h1
              exact Option.noConfusion h1
      | none =>
          have hcb : checkPortInBuffer st c = { st with buffer := st.buffer ++ c } := by
            rw [checkPortInBuffer, if_neg (by simp [hres])]
            simp only [hsc]
          rw [hcb]
          have hpre2 : ∀ k, k < cs.length →
              scanPort ((st.buffer ++ c) ++ concatChunks (cs.take k)) = none := by
            intro k hk
            have h2 := hpre (k + 1) (Nat.succ_lt_succ hk)
            simp only [List.take_succ_cons, concatChunks,
              ← List.append_assoc] at h2
            exact h2
          have hfull2 : scanPort ((st.buffer ++ c) ++ concatChunks cs) = some p := by
            simp only [concatChunks, ← List.append_assoc] at hfull
            exact hfull
          exact ih { st with buffer := st.buffer ++ c } hres hsc hpre2 hfull2

/-- Witness for C3 on the split announcement: the chunk
"Running at http://localhost:" followed by "3000/" resolves port 3000
from a fresh attempt, while neither proper prefix matches. -/
theorem scanner_finds_first_match_in_concatenation_witness :
    runData freshAttemptExample splitChunksExample =
      { freshAttemptExample with
          buffer := []
          portResolved := true
          serverPort := some 3000
          serverStarted := true
          promise := PromiseState.resolvedP 3000 } :=
  scanner_finds_first_match_in_concatenation splitChunksExample
    freshAttemptExample 3000 rfl rfl (by decide) (by decide)

end Amadeus
